import Mathlib

/-!
Shallow embedding of the OAuth2 token lifecycle manager and the axios
interceptor pair of the Mautic MCP server (src/index.ts), together with
the query-parameter construction of the list/search tool handlers.

Times are integers (milliseconds since epoch, as JavaScript Date.now()).
Network interaction with the token endpoint is modelled by passing the
endpoint's outcome explicitly: an endpoint call either throws
(Except.error ()) or yields a parsed JSON body (Except.ok r).  Calls to
the target REST API are modelled by a scripted list of attempt
environments, one per physical send the run may perform.
-/

namespace Mautic

/-- Well-formed parsed JSON body of a successful token-endpoint
response: access_token, optional refresh_token, expires_in (seconds),
optional token_type.  This is the restriction to bodies carrying the
required fields; RawTokenBody below models an arbitrary 2xx body, with
getAccessTokenRaw the corresponding faithful acquisition, and the two
agree on well-formed bodies (getAccessTokenRaw_agrees_on_wellformed). -/
structure TokenEndpointResp where
  access_token : String
  refresh_token : Option String
  expires_in : Int
  token_type : Option String
deriving DecidableEq

/-- The stored OAuth2 token (interface OAuth2Token in the source):
this.token. -/
structure OAuth2Token where
  access_token : String
  refresh_token : Option String
  expires_at : Int
  token_type : String
deriving DecidableEq

/-- The token store: this.token, which is OAuth2Token | null. -/
abbrev TokenState := Option OAuth2Token

/-- Errors surfaced by the token manager; authenticationFailure is the
McpError(InternalError, "Failed to authenticate with Mautic API") thrown
by getAccessToken.  invalidParams models the other McpError kind used
elsewhere in the server. -/
inductive MauticError where
  | authenticationFailure
  | invalidParams
deriving DecidableEq

/-- A request made to the OAuth2 token endpoint, identified by its grant. -/
inductive GrantRequest where
  | clientCredentials
  | refreshGrant (rt : String)
deriving DecidableEq

/-- JavaScript truthiness of an optional string (undefined and "" are
falsy). -/
def strTruthy : Option String → Bool
  | some s => s != ""
  | none => false

/-- JavaScript truthiness of an optional number (undefined and 0 are
falsy). -/
def numTruthy : Option Int → Bool
  | some n => n != 0
  | none => false

/-- JavaScript truthiness of an optional boolean. -/
def boolTruthy : Option Bool → Bool
  | some b => b
  | none => false

/-- JavaScript a || b for optional strings: a unless a is undefined or
"". -/
def jsOr (a b : Option String) : Option String :=
  match a with
  | some s => if s = "" then b else some s
  | none => b

/-- JavaScript a || d for an optional string a and a string default d. -/
def jsOrD (a : Option String) (d : String) : String :=
  match a with
  | some s => if s = "" then d else s
  | none => d

/-- getAccessToken: POST grant_type=client_credentials to the token
endpoint (outcome ar).  On success store a new token with
expires_at = Date.now() + expires_in * 1000 - 60000 (1 minute buffer)
and token_type defaulting to "Bearer"; on a thrown request (network
error or non-2xx, which axios rejects) throw authenticationFailure,
leaving this.token untouched.  Returns (thrown or ok, new token state,
list of grant requests made).  This version is restricted to 2xx
responses with well-formed bodies; getAccessTokenRaw below covers
arbitrary 2xx bodies. -/
def getAccessToken (now : Int) (ar : Except Unit TokenEndpointResp)
    (st : TokenState) :
    Except MauticError Unit × TokenState × List GrantRequest :=
  match ar with
  | .ok r =>
    (.ok (), some { access_token := r.access_token,
                    refresh_token := r.refresh_token,
                    expires_at := now + r.expires_in * 1000 - 60000,
                    token_type := jsOrD r.token_type "Bearer" },
     [.clientCredentials])
  | .error _ => (.error .authenticationFailure, st, [.clientCredentials])

/-- refreshToken: if no truthy refresh token is stored, delegate to
getAccessToken.  Otherwise POST grant_type=refresh_token (outcome rr).
On success store a new token keeping the old refresh token when the
response omits one (JavaScript ||); on failure fall back to
getAccessToken (outcome ar). -/
def refreshToken (now : Int) (rr ar : Except Unit TokenEndpointResp)
    (st : TokenState) :
    Except MauticError Unit × TokenState × List GrantRequest :=
  match st with
  | none => getAccessToken now ar none
  | some t =>
    match t.refresh_token with
    | none => getAccessToken now ar (some t)
    | some rt =>
      if rt = "" then getAccessToken now ar (some t)
      else
        match rr with
        | .ok r =>
          (.ok (), some { access_token := r.access_token,
                          refresh_token := jsOr r.refresh_token (some rt),
                          expires_at := now + r.expires_in * 1000 - 60000,
                          token_type := jsOrD r.token_type "Bearer" },
           [.refreshGrant rt])
        | .error _ =>
          match getAccessToken now ar (some t) with
          | (res, st2, g) => (res, st2, .refreshGrant rt :: g)

/-- ensureValidToken: if this.token is null or Date.now() >= expires_at,
refresh when a truthy refresh token is stored, else acquire; otherwise a
no-op. -/
def ensureValidToken (now : Int) (rr ar : Except Unit TokenEndpointResp)
    (st : TokenState) :
    Except MauticError Unit × TokenState × List GrantRequest :=
  match st with
  | none => getAccessToken now ar none
  | some t =>
    if now ≥ t.expires_at then
      if strTruthy t.refresh_token then refreshToken now rr ar (some t)
      else getAccessToken now ar (some t)
    else (.ok (), some t, [])

/-- An axios request config: url, body, and the Authorization header. -/
structure RequestConfig where
  url : String
  body : String
  authorization : Option String
deriving DecidableEq

/-- The request interceptor: await ensureValidToken(), then if a token is
stored set config.headers.Authorization = "Bearer " + access_token.  A
thrown error aborts the request before it is sent. -/
def requestInterceptor (now : Int) (rr ar : Except Unit TokenEndpointResp)
    (st : TokenState) (cfg : RequestConfig) :
    Except MauticError RequestConfig × TokenState × List GrantRequest :=
  match ensureValidToken now rr ar st with
  | (.error e, st1, g) => (.error e, st1, g)
  | (.ok _, st1, g) =>
    match st1 with
    | some t =>
      (.ok { cfg with authorization := some ("Bearer " ++ t.access_token) },
       st1, g)
    | none => (.ok cfg, st1, g)

/-- The refresh token of the stored state, as read by
this.token?.refresh_token. -/
def storedRefreshToken : TokenState → Option String
  | some t => t.refresh_token
  | none => none

/-- The access token read by the template ${this.token?.access_token}
(undefined interpolates as the string "undefined"). -/
def storedAccessString : TokenState → String
  | some t => t.access_token
  | none => "undefined"

/-- Environment for one physical send of a request: the clock value, the
token-endpoint outcomes available to the pre-send interceptor, the HTTP
status the API answers with (none models a network error with no
response), and the token-endpoint outcomes available to the post-401
refresh. -/
structure AttemptEnv where
  now : Int
  preRefresh : Except Unit TokenEndpointResp
  preAcquire : Except Unit TokenEndpointResp
  status : Option Nat
  postRefresh : Except Unit TokenEndpointResp
  postAcquire : Except Unit TokenEndpointResp

/-- A request actually placed on the wire, with the header it carried. -/
structure SentRequest where
  url : String
  body : String
  authorization : Option String
deriving DecidableEq

/-- Final outcome of running one logical API request through the
interceptor chain. -/
inductive ReqOutcome where
  | ok (status : Nat)
  | httpError (status : Option Nat)
  | authFailure
  | exhausted
deriving DecidableEq

/-- axiosInstance.request: run the request interceptor, send, and on a
non-2xx outcome run the response error interceptor: when the status is
401 and this.token?.refresh_token is truthy, refreshToken() and resend
the original config (with the new header) through the same chain —
the recursion is bounded here only by the scripted attempt list.  If
refreshToken() throws, the original error is rejected.  Returns the
outcome, the final token state, every request sent, and every grant
request made. -/
def runRequest : List AttemptEnv → TokenState → RequestConfig →
    ReqOutcome × TokenState × List SentRequest × List GrantRequest
  | [], st, _ => (.exhausted, st, [], [])
  | env :: rest, st, cfg =>
    match requestInterceptor env.now env.preRefresh env.preAcquire st cfg with
    | (.error _, st1, g1) => (.authFailure, st1, [], g1)
    | (.ok cfg1, st1, g1) =>
      let sent : SentRequest := ⟨cfg1.url, cfg1.body, cfg1.authorization⟩
      match env.status with
      | none => (.httpError none, st1, [sent], g1)
      | some s =>
        if 200 ≤ s ∧ s < 300 then (.ok s, st1, [sent], g1)
        else if s = 401 ∧ strTruthy (storedRefreshToken st1) then
          match refreshToken env.now env.postRefresh env.postAcquire st1 with
          | (.error _, st2, g2) => (.httpError (some 401), st2, [sent], g1 ++ g2)
          | (.ok _, st2, g2) =>
            match runRequest rest st2
                { cfg1 with
                  authorization := some ("Bearer " ++ storedAccessString st2) } with
            | (res, st3, sends, g3) => (res, st3, sent :: sends, g1 ++ (g2 ++ g3))
        else (.httpError (some s), st1, [sent], g1)

/-- Query parameters forwarded to the Mautic REST API by a list/search
handler; a field is none when the handler sends no such parameter. -/
structure QueryParams where
  search : Option String := none
  limit : Option Int := none
  start : Option Int := none
  orderBy : Option String := none
  orderByDir : Option String := none
  publishedOnly : Option Bool := none
  minimal : Option Bool := none
  dateFrom : Option String := none
  dateTo : Option String := none
  includeEvents : Option (List String) := none
  excludeEvents : Option (List String) := none
deriving DecidableEq

/-- Arguments of the search_contacts tool. -/
structure SearchContactsArgs where
  search : Option String := none
  limit : Option Int := none
  start : Option Int := none
  orderBy : Option String := none
  orderByDir : Option String := none
  publishedOnly : Option Bool := none
  minimal : Option Bool := none

/-- Shared argument shape of the list_campaigns, list_emails, list_forms
and list_segments tools. -/
structure ListToolArgs where
  search : Option String := none
  limit : Option Int := none
  start : Option Int := none
  publishedOnly : Option Bool := none

/-- Arguments of the get_form_submissions tool. -/
structure FormSubmissionsArgs where
  formId : Int
  limit : Option Int := none
  start : Option Int := none
  dateFrom : Option String := none
  dateTo : Option String := none

/-- Arguments of the get_segment_contacts tool. -/
structure SegmentContactsArgs where
  segmentId : Int
  limit : Option Int := none
  start : Option Int := none

/-- Arguments of the get_contact_activity tool. -/
structure ContactActivityArgs where
  contactId : Int
  search : Option String := none
  includeEvents : Option (List String) := none
  excludeEvents : Option (List String) := none
  dateFrom : Option String := none
  dateTo : Option String := none
  limit : Option Int := none

/-- searchContacts: params built field by field under JavaScript
truthiness, the limit capped by Math.min(limit, 200). -/
def searchContactsParams (args : SearchContactsArgs) : QueryParams :=
  { search := if strTruthy args.search then args.search else none,
    limit := if numTruthy args.limit then args.limit.map (fun l => min l 200) else none,
    start := if numTruthy args.start then args.start else none,
    orderBy := if strTruthy args.orderBy then args.orderBy else none,
    orderByDir := if strTruthy args.orderByDir then args.orderByDir else none,
    publishedOnly := if boolTruthy args.publishedOnly then args.publishedOnly else none,
    minimal := if boolTruthy args.minimal then args.minimal else none }

/-- listCampaigns: params built field by field under JavaScript
truthiness, the limit capped by Math.min(limit, 200). -/
def listCampaignsParams (args : ListToolArgs) : QueryParams :=
  { search := if strTruthy args.search then args.search else none,
    limit := if numTruthy args.limit then args.limit.map (fun l => min l 200) else none,
    start := if numTruthy args.start then args.start else none,
    publishedOnly := if boolTruthy args.publishedOnly then args.publishedOnly else none }

/-- listEmails: params built field by field under JavaScript truthiness,
the limit capped by Math.min(limit, 200). -/
def listEmailsParams (args : ListToolArgs) : QueryParams :=
  { search := if strTruthy args.search then args.search else none,
    limit := if numTruthy args.limit then args.limit.map (fun l => min l 200) else none,
    start := if numTruthy args.start then args.start else none,
    publishedOnly := if boolTruthy args.publishedOnly then args.publishedOnly else none }

/-- listForms: params built field by field under JavaScript truthiness,
the limit capped by Math.min(limit, 200). -/
def listFormsParams (args : ListToolArgs) : QueryParams :=
  { search := if strTruthy args.search then args.search else none,
    limit := if numTruthy args.limit then args.limit.map (fun l => min l 200) else none,
    start := if numTruthy args.start then args.start else none,
    publishedOnly := if boolTruthy args.publishedOnly then args.publishedOnly else none }

/-- listSegments: params built field by field under JavaScript
truthiness, the limit capped by Math.min(limit, 200). -/
def listSegmentsParams (args : ListToolArgs) : QueryParams :=
  { search := if strTruthy args.search then args.search else none,
    limit := if numTruthy args.limit then args.limit.map (fun l => min l 200) else none,
    start := if numTruthy args.start then args.start else none,
    publishedOnly := if boolTruthy args.publishedOnly then args.publishedOnly else none }

/-- getFormSubmissions: params built from limit/start/dateFrom/dateTo
under JavaScript truthiness, the limit capped by Math.min(limit, 200). -/
def getFormSubmissionsParams (args : FormSubmissionsArgs) : QueryParams :=
  { limit := if numTruthy args.limit then args.limit.map (fun l => min l 200) else none,
    start := if numTruthy args.start then args.start else none,
    dateFrom := if strTruthy args.dateFrom then args.dateFrom else none,
    dateTo := if strTruthy args.dateTo then args.dateTo else none }

/-- getSegmentContacts: params built from limit/start under JavaScript
truthiness, the limit capped by Math.min(limit, 200). -/
def getSegmentContactsParams (args : SegmentContactsArgs) : QueryParams :=
  { limit := if numTruthy args.limit then args.limit.map (fun l => min l 200) else none,
    start := if numTruthy args.start then args.start else none }

/-- getContactActivity: params built field by field under JavaScript
truthiness (arrays are always truthy), the limit capped by
Math.min(limit, 200). -/
def getContactActivityParams (args : ContactActivityArgs) : QueryParams :=
  { search := if strTruthy args.search then args.search else none,
    includeEvents := args.includeEvents,
    excludeEvents := args.excludeEvents,
    dateFrom := if strTruthy args.dateFrom then args.dateFrom else none,
    dateTo := if strTruthy args.dateTo then args.dateTo else none,
    limit := if numTruthy args.limit then args.limit.map (fun l => min l 200) else none }

/-- Arbitrary parsed body of a 2xx token-endpoint response: any field
may be absent (JavaScript undefined).  axios resolves a 2xx response
even when the body is malformed, so the source reads these fields
without validation. -/
structure RawTokenBody where
  access_token : Option String
  refresh_token : Option String
  expires_in : Option Int
  token_type : Option String
deriving DecidableEq

/-- The stored token as the source actually builds it from an arbitrary
body: access_token may be undefined, and expires_at may be NaN
(modelled as none) when expires_in was absent, since
Date.now() + undefined * 1000 - 60000 is NaN. -/
structure RawOAuth2Token where
  access_token : Option String
  refresh_token : Option String
  expires_at : Option Int
  token_type : String
deriving DecidableEq

/-- Date.now() + expires_in * 1000 - 60000 under JavaScript number
semantics: an absent expires_in makes the whole expression NaN
(none). -/
def jsExpiry (now : Int) (e : Option Int) : Option Int :=
  e.map (fun v => now + v * 1000 - 60000)

/-- JavaScript a >= b where b may be NaN: every comparison with NaN is
false. -/
def jsGeNum (a : Int) (b : Option Int) : Bool :=
  match b with
  | some v => a ≥ v
  | none => false

/-- getAccessToken over an arbitrary 2xx body: the try/catch only
catches the rejected request (the await of axios.post); a resolved
response has its fields stored as-is, malformed or not, with no
error. -/
def getAccessTokenRaw (now : Int) (ar : Except Unit RawTokenBody)
    (st : Option RawOAuth2Token) :
    Except MauticError Unit × Option RawOAuth2Token × List GrantRequest :=
  match ar with
  | .ok r =>
    (.ok (), some { access_token := r.access_token,
                    refresh_token := r.refresh_token,
                    expires_at := jsExpiry now r.expires_in,
                    token_type := jsOrD r.token_type "Bearer" },
     [.clientCredentials])
  | .error _ => (.error .authenticationFailure, st, [.clientCredentials])

/-- refreshToken over arbitrary 2xx bodies, mirroring refreshToken with
the same field-by-field storage and fallback to getAccessTokenRaw. -/
def refreshTokenRaw (now : Int) (rr ar : Except Unit RawTokenBody)
    (st : Option RawOAuth2Token) :
    Except MauticError Unit × Option RawOAuth2Token × List GrantRequest :=
  match st with
  | none => getAccessTokenRaw now ar none
  | some t =>
    match t.refresh_token with
    | none => getAccessTokenRaw now ar (some t)
    | some rt =>
      if rt = "" then getAccessTokenRaw now ar (some t)
      else
        match rr with
        | .ok r =>
          (.ok (), some { access_token := r.access_token,
                          refresh_token := jsOr r.refresh_token (some rt),
                          expires_at := jsExpiry now r.expires_in,
                          token_type := jsOrD r.token_type "Bearer" },
           [.refreshGrant rt])
        | .error _ =>
          match getAccessTokenRaw now ar (some t) with
          | (res, st2, g) => (res, st2, .refreshGrant rt :: g)

/-- ensureValidToken over the raw token state: the guard
Date.now() >= expires_at is false when expires_at is NaN, so a
credential stored from a body without expires_in is treated as valid
forever. -/
def ensureValidTokenRaw (now : Int) (rr ar : Except Unit RawTokenBody)
    (st : Option RawOAuth2Token) :
    Except MauticError Unit × Option RawOAuth2Token × List GrantRequest :=
  match st with
  | none => getAccessTokenRaw now ar none
  | some t =>
    if jsGeNum now t.expires_at then
      if strTruthy t.refresh_token then refreshTokenRaw now rr ar (some t)
      else getAccessTokenRaw now ar (some t)
    else (.ok (), some t, [])

/-- The embedding of a well-formed stored token into the raw state. -/
def toRawToken (t : OAuth2Token) : RawOAuth2Token :=
  { access_token := some t.access_token,
    refresh_token := t.refresh_token,
    expires_at := some t.expires_at,
    token_type := t.token_type }

/-- The embedding of a well-formed endpoint body into the raw body. -/
def toRawBody (r : TokenEndpointResp) : RawTokenBody :=
  { access_token := some r.access_token,
    refresh_token := r.refresh_token,
    expires_in := some r.expires_in,
    token_type := r.token_type }

/-! ## Helper lemmas -/

/-- On well-formed bodies the raw acquisition agrees with the
well-formed model getAccessToken, both on success and on a thrown
request, justifying the use of the coarser model for claims that only
concern well-formed responses. -/
lemma getAccessTokenRaw_agrees_on_wellformed
    (now : Int) (ar : Except Unit TokenEndpointResp) (st : TokenState) :
    getAccessTokenRaw now (ar.map toRawBody) (st.map toRawToken) =
      ((getAccessToken now ar st).1,
       (getAccessToken now ar st).2.1.map toRawToken,
       (getAccessToken now ar st).2.2) := by
  cases ar <;> rfl

/-- A successful getAccessToken call always stores a token. -/
lemma getAccessToken_ok_some {now : Int} {ar : Except Unit TokenEndpointResp}
    {st : TokenState} {u : Unit} {st1 : TokenState} {g : List GrantRequest}
    (h : getAccessToken now ar st = (.ok u, st1, g)) :
    ∃ r, ar = Except.ok r ∧
      st1 = some { access_token := r.access_token,
                   refresh_token := r.refresh_token,
                   expires_at := now + r.expires_in * 1000 - 60000,
                   token_type := jsOrD r.token_type "Bearer" } := by
  cases ar with
  | ok r =>
    refine ⟨r, rfl, ?_⟩
    simp only [getAccessToken, Prod.mk.injEq] at h
    exact h.2.1.symm
  | error e => simp [getAccessToken] at h

/-- A failed getAccessToken call throws authenticationFailure and leaves
the stored token unchanged. -/
lemma getAccessToken_error_eq {now : Int} {ar : Except Unit TokenEndpointResp}
    {st : TokenState} {e : MauticError} {st1 : TokenState} {g : List GrantRequest}
    (h : getAccessToken now ar st = (.error e, st1, g)) :
    e = MauticError.authenticationFailure ∧ st1 = st := by
  cases ar with
  | ok r => simp [getAccessToken] at h
  | error u =>
    simp only [getAccessToken, Prod.mk.injEq, Except.error.injEq] at h
    exact ⟨h.1.symm, h.2.1.symm⟩

/-- A successful refreshToken call always stores a token, whose
expires_at carries the 60-second safety margin. -/
lemma refreshToken_ok_some {now : Int} {rr ar : Except Unit TokenEndpointResp}
    {st : TokenState} {u : Unit} {st1 : TokenState} {g : List GrantRequest}
    (h : refreshToken now rr ar st = (.ok u, st1, g)) :
    ∃ c e, st1 = some c ∧ c.expires_at = now + e * 1000 - 60000 ∧
      ((∃ r, rr = Except.ok r ∧ e = r.expires_in) ∨
       (∃ r, ar = Except.ok r ∧ e = r.expires_in)) := by
  have hacq : ∀ (st' : TokenState) (g' : List GrantRequest),
      getAccessToken now ar st' = (.ok u, st1, g') →
      ∃ c e, st1 = some c ∧ c.expires_at = now + e * 1000 - 60000 ∧
        ((∃ r, rr = Except.ok r ∧ e = r.expires_in) ∨
         (∃ r, ar = Except.ok r ∧ e = r.expires_in)) := by
    intro st' g' h'
    obtain ⟨r, har, hst⟩ := getAccessToken_ok_some h'
    exact ⟨_, r.expires_in, hst, rfl, Or.inr ⟨r, har, rfl⟩⟩
  match st with
  | none => exact hacq none g h
  | some t =>
    simp only [refreshToken] at h
    cases hrt : t.refresh_token with
    | none => simp only [hrt] at h; exact hacq (some t) g h
    | some rt =>
      simp only [hrt] at h
      by_cases hr0 : rt = ""
      · rw [if_pos hr0] at h; exact hacq (some t) g h
      · rw [if_neg hr0] at h
        cases rr with
        | ok r =>
          simp only [Prod.mk.injEq] at h
          obtain ⟨-, h2, -⟩ := h
          exact ⟨_, r.expires_in, h2.symm, rfl, Or.inl ⟨r, rfl, rfl⟩⟩
        | error v =>
          simp only [Prod.mk.injEq] at h
          obtain ⟨h1, h2, -⟩ := h
          refine hacq (some t) (getAccessToken now ar (some t)).2.2 ?_
          calc getAccessToken now ar (some t)
              = ((getAccessToken now ar (some t)).1,
                 (getAccessToken now ar (some t)).2.1,
                 (getAccessToken now ar (some t)).2.2) := rfl
            _ = (Except.ok u, st1, (getAccessToken now ar (some t)).2.2) := by
                rw [h1, h2]

/-- A successful ensureValidToken call always leaves a stored token. -/
lemma ensureValidToken_ok_some {now : Int} {rr ar : Except Unit TokenEndpointResp}
    {st : TokenState} {u : Unit} {st1 : TokenState} {g : List GrantRequest}
    (h : ensureValidToken now rr ar st = (.ok u, st1, g)) :
    ∃ t, st1 = some t := by
  match st with
  | none =>
    obtain ⟨r, _, hst⟩ := getAccessToken_ok_some h
    exact ⟨_, hst⟩
  | some t =>
    simp only [ensureValidToken] at h
    by_cases hexp : now ≥ t.expires_at
    · rw [if_pos hexp] at h
      by_cases htr : strTruthy t.refresh_token
      · rw [if_pos htr] at h
        obtain ⟨c, _, hst, _, _⟩ := refreshToken_ok_some h
        exact ⟨c, hst⟩
      · rw [if_neg htr] at h
        obtain ⟨r, _, hst⟩ := getAccessToken_ok_some h
        exact ⟨_, hst⟩
    · rw [if_neg hexp] at h
      simp only [Prod.mk.injEq] at h
      exact ⟨t, h.2.1.symm⟩

/-! ## Claims -/

/-- C9 counterexample: the acquisition endpoint answers 2xx with the
malformed body {} (no access_token, no expires_in); starting from no
credential, ensureValidToken returns without error — no
authenticationFailure — and a garbage credential (undefined access
token, NaN expiry) is stored, not nothing. -/
theorem C9_counterexample :
    (ensureValidTokenRaw 0 (Except.error ())
        (Except.ok ⟨none, none, none, none⟩) none).1 = Except.ok () ∧
    (ensureValidTokenRaw 0 (Except.error ())
        (Except.ok ⟨none, none, none, none⟩) none).2.1 =
      some ⟨none, none, none, "Bearer"⟩ ∧
    (some (⟨none, none, none, "Bearer"⟩ : RawOAuth2Token) ≠
      (none : Option RawOAuth2Token)) :=
  ⟨rfl, rfl, by decide⟩

/-- C9 (amended): whenever the token-endpoint request of getAccessToken
itself throws (network error or non-2xx status), an
authenticationFailure error is raised and the stored credential is left
unchanged — in particular ensureValidToken starting from no credential
stores nothing.  A 2xx response with a malformed body does not fail:
its fields are stored as-is without error (no access token, NaN
expiry), and a credential whose expiry is NaN is treated as valid
forever by ensureValidToken, which then no-ops. -/
theorem C9_acquire_failure_no_store :
    ∀ (now : Int) (st : Option RawOAuth2Token) (u : Unit)
      (rr ar : Except Unit RawTokenBody) (t : RawOAuth2Token),
      getAccessTokenRaw now (Except.error u) st =
        (.error .authenticationFailure, st, [.clientCredentials]) ∧
      ensureValidTokenRaw now rr (Except.error u) none =
        (.error .authenticationFailure, none, [.clientCredentials]) ∧
      getAccessTokenRaw now (Except.ok ⟨none, none, none, none⟩) st =
        (.ok (), some ⟨none, none, none, "Bearer"⟩, [.clientCredentials]) ∧
      (t.expires_at = none →
        ensureValidTokenRaw now rr ar (some t) = (.ok (), some t, [])) := by
  intro now st u rr ar t
  refine ⟨rfl, rfl, rfl, ?_⟩
  intro h
  simp [ensureValidTokenRaw, jsGeNum, h]

/-- C9 (amended) witness: a thrown acquisition from the empty store
surfaces authenticationFailure with nothing stored, and a concrete
NaN-expiry credential makes ensureValidToken a no-op. -/
theorem C9_acquire_failure_no_store_witness :
    getAccessTokenRaw 0 (Except.error ()) none =
      (.error .authenticationFailure, none, [.clientCredentials]) ∧
    ensureValidTokenRaw 0 (Except.error ()) (Except.error ())
        (some ⟨none, none, none, "Bearer"⟩) =
      (.ok (), some ⟨none, none, none, "Bearer"⟩, []) :=
  ⟨(C9_acquire_failure_no_store 0 none () (Except.error ()) (Except.error ())
      ⟨none, none, none, "Bearer"⟩).1,
   (C9_acquire_failure_no_store 0 none () (Except.error ()) (Except.error ())
      ⟨none, none, none, "Bearer"⟩).2.2.2 rfl⟩

/-- C6: a successful acquisition or refresh stores a credential whose
expires_at is the current instant plus expires_in seconds minus the
60-second margin, in milliseconds: now + expires_in * 1000 - 60000. -/
theorem C6_expiry_safety_margin :
    ∀ (now : Int) (r : TokenEndpointResp) (st : TokenState)
      (ar : Except Unit TokenEndpointResp) (t : OAuth2Token) (rt : String),
      (∃ c, (getAccessToken now (Except.ok r) st).2.1 = some c ∧
        c.expires_at = now + r.expires_in * 1000 - 60000) ∧
      (t.refresh_token = some rt → rt ≠ "" →
        ∃ c, (refreshToken now (Except.ok r) ar (some t)).2.1 = some c ∧
          c.expires_at = now + r.expires_in * 1000 - 60000) := by
  intro now r st ar t rt
  constructor
  · refine ⟨_, rfl, ?_⟩
    rfl
  · intro h1 h2
    simp only [refreshToken, h1, if_neg h2]
    refine ⟨_, rfl, ?_⟩
    rfl

/-- C5: a successful refresh keeps the previous refresh token when the
response omits the refresh_token field, and replaces it when the
response supplies a (nonempty) one. -/
theorem C5_refresh_token_retention :
    ∀ (now : Int) (ar : Except Unit TokenEndpointResp) (t : OAuth2Token)
      (rt : String) (r : TokenEndpointResp),
      t.refresh_token = some rt → rt ≠ "" →
      ((r.refresh_token = none →
         ∃ c, (refreshToken now (Except.ok r) ar (some t)).2.1 = some c ∧
           c.refresh_token = some rt) ∧
       (∀ s, r.refresh_token = some s → s ≠ "" →
         ∃ c, (refreshToken now (Except.ok r) ar (some t)).2.1 = some c ∧
           c.refresh_token = some s)) := by
  intro now ar t rt r h1 h2
  constructor
  · intro hnone
    simp only [refreshToken, h1, if_neg h2]
    exact ⟨_, rfl, by simp [jsOr, hnone]⟩
  · intro s hs hs0
    simp only [refreshToken, h1, if_neg h2]
    exact ⟨_, rfl, by simp [jsOr, hs, hs0]⟩

/-- C4: when the refresh_token grant fails, refreshToken falls back to
client_credentials acquisition; if the fallback succeeds, the new
credential is stored without error (and is unexpired whenever
expires_in exceeds the 60-second margin); an authenticationFailure
reaches the caller only when the fallback also fails, the stored
credential then being unchanged. -/
theorem C4_refresh_fallback :
    ∀ (now : Int) (t : OAuth2Token) (rt : String) (r : TokenEndpointResp),
      t.refresh_token = some rt → rt ≠ "" →
      ((∃ c, refreshToken now (Except.error ()) (Except.ok r) (some t) =
          (.ok (), some c, [.refreshGrant rt, .clientCredentials]) ∧
          c.access_token = r.access_token ∧
          c.expires_at = now + r.expires_in * 1000 - 60000 ∧
          (60 < r.expires_in → now < c.expires_at)) ∧
       refreshToken now (Except.error ()) (Except.error ()) (some t) =
         (.error .authenticationFailure, some t, [.refreshGrant rt, .clientCredentials])) := by
  intro now t rt r h1 h2
  constructor
  · refine ⟨{ access_token := r.access_token, refresh_token := r.refresh_token,
              expires_at := now + r.expires_in * 1000 - 60000,
              token_type := jsOrD r.token_type "Bearer" }, ?_, rfl, rfl, ?_⟩
    · simp only [refreshToken, h1, if_neg h2, getAccessToken]
    · intro hgt
      show now < now + r.expires_in * 1000 - 60000
      omega
  · simp only [refreshToken, h1, if_neg h2, getAccessToken]

/-- A failed refreshToken call throws authenticationFailure (the only
throwing path is the fallback acquisition) and leaves the stored token
unchanged. -/
lemma refreshToken_error_eq {now : Int} {rr ar : Except Unit TokenEndpointResp}
    {st : TokenState} {e : MauticError} {st1 : TokenState} {g : List GrantRequest}
    (h : refreshToken now rr ar st = (.error e, st1, g)) :
    e = MauticError.authenticationFailure ∧ st1 = st := by
  match st with
  | none => exact getAccessToken_error_eq h
  | some t =>
    simp only [refreshToken] at h
    cases hrt : t.refresh_token with
    | none => simp only [hrt] at h; exact getAccessToken_error_eq h
    | some rt =>
      simp only [hrt] at h
      by_cases hr0 : rt = ""
      · rw [if_pos hr0] at h; exact getAccessToken_error_eq h
      · rw [if_neg hr0] at h
        cases rr with
        | ok r => simp [Prod.mk.injEq] at h
        | error v =>
          simp only [Prod.mk.injEq] at h
          obtain ⟨h1, h2, -⟩ := h
          have hga : getAccessToken now ar (some t) =
              (.error e, st1, (getAccessToken now ar (some t)).2.2) := by
            calc getAccessToken now ar (some t)
                = ((getAccessToken now ar (some t)).1,
                   (getAccessToken now ar (some t)).2.1,
                   (getAccessToken now ar (some t)).2.2) := rfl
              _ = (Except.error e, st1, (getAccessToken now ar (some t)).2.2) := by
                  rw [h1, h2]
          exact getAccessToken_error_eq hga

/-- C2 counterexample: with the token endpoint reporting
expires_in = 60 seconds at time now = 0, ensureValidToken returns
without error yet the stored credential's expires_at is 0, which is not
strictly greater than the current time 0. -/
theorem C2_counterexample :
    (ensureValidToken 0 (Except.error ()) (Except.ok ⟨"A", none, 60, none⟩) none).1 =
      Except.ok () ∧
    ((ensureValidToken 0 (Except.error ()) (Except.ok ⟨"A", none, 60, none⟩) none).2.1.map
      (fun t => t.expires_at)) = some 0 ∧
    ¬ ((0 : Int) < 0) :=
  ⟨rfl, by decide, by decide⟩

/-- C2 (amended): provided every token-endpoint response consumed
reports expires_in strictly above the 60-second safety margin, whenever
ensureValidToken returns without error the stored credential's
expires_at is strictly greater than the current time; on error the
surfaced error is authenticationFailure. -/
theorem C2_valid_or_auth_failure :
    ∀ (now : Int) (rr ar : Except Unit TokenEndpointResp) (st : TokenState),
      (∀ r, rr = Except.ok r → 60 < r.expires_in) →
      (∀ r, ar = Except.ok r → 60 < r.expires_in) →
      ((∀ u st1 g, ensureValidToken now rr ar st = (.ok u, st1, g) →
          ∃ t, st1 = some t ∧ now < t.expires_at) ∧
       (∀ e st1 g, ensureValidToken now rr ar st = (.error e, st1, g) →
          e = MauticError.authenticationFailure)) := by
  intro now rr ar st hr ha
  constructor
  · intro u st1 g h
    match st with
    | none =>
      obtain ⟨r, har, hst⟩ := getAccessToken_ok_some h
      refine ⟨_, hst, ?_⟩
      have := ha r har
      show now < now + r.expires_in * 1000 - 60000
      omega
    | some t =>
      simp only [ensureValidToken] at h
      by_cases hexp : now ≥ t.expires_at
      · rw [if_pos hexp] at h
        by_cases htr : strTruthy t.refresh_token
        · rw [if_pos htr] at h
          obtain ⟨c, e, hst, hexpat, hsrc⟩ := refreshToken_ok_some h
          refine ⟨c, hst, ?_⟩
          have h60 : 60 < e := by
            rcases hsrc with ⟨r, hrr, he⟩ | ⟨r, har, he⟩
            · exact he ▸ hr r hrr
            · exact he ▸ ha r har
          omega
        · rw [if_neg htr] at h
          obtain ⟨r, har, hst⟩ := getAccessToken_ok_some h
          refine ⟨_, hst, ?_⟩
          have := ha r har
          show now < now + r.expires_in * 1000 - 60000
          omega
      · rw [if_neg hexp] at h
        simp only [Prod.mk.injEq] at h
        exact ⟨t, h.2.1.symm, by omega⟩
  · intro e st1 g h
    match st with
    | none => exact (getAccessToken_error_eq h).1
    | some t =>
      simp only [ensureValidToken] at h
      by_cases hexp : now ≥ t.expires_at
      · rw [if_pos hexp] at h
        by_cases htr : strTruthy t.refresh_token
        · rw [if_pos htr] at h
          exact (refreshToken_error_eq h).1
        · rw [if_neg htr] at h
          exact (getAccessToken_error_eq h).1
      · rw [if_neg hexp] at h
        simp [Prod.mk.injEq] at h

/-- C2 (amended) witness at now = 0, no stored token, acquisition
returning expires_in = 3600. -/
theorem C2_valid_or_auth_failure_witness :
    ∃ t, (ensureValidToken 0 (Except.error ())
        (Except.ok ⟨"A1", none, 3600, none⟩) none).2.1 = some t ∧
      (0 : Int) < t.expires_at :=
  (C2_valid_or_auth_failure 0 (Except.error ()) (Except.ok ⟨"A1", none, 3600, none⟩) none
    (fun r hr => by cases hr) (fun r hr => by cases hr; decide)).1
    () (some ⟨"A1", none, 3540000, "Bearer"⟩) [.clientCredentials] rfl

/-- C3: ensureValidToken dispatch — with no stored credential it makes
exactly one client_credentials acquisition request; with an expired
credential carrying a (truthy) refresh token its first token-endpoint
request is the refresh grant, and when the refresh grant succeeds no
client_credentials request is made at all; with an unexpired credential
it is a no-op: no error, unchanged state, no token-endpoint request. -/
theorem C3_dispatch :
    ∀ (now : Int) (rr ar : Except Unit TokenEndpointResp) (t : OAuth2Token),
      ((ensureValidToken now rr ar none).2.2 = [GrantRequest.clientCredentials]) ∧
      (now ≥ t.expires_at → strTruthy t.refresh_token = true →
        ∃ rt, t.refresh_token = some rt ∧
          (ensureValidToken now rr ar (some t)).2.2.head? =
            some (GrantRequest.refreshGrant rt) ∧
          (∀ r, rr = Except.ok r →
            (ensureValidToken now rr ar (some t)).2.2 =
              [GrantRequest.refreshGrant rt])) ∧
      (now < t.expires_at →
        ensureValidToken now rr ar (some t) = (.ok (), some t, [])) := by
  intro now rr ar t
  refine ⟨?_, ?_, ?_⟩
  · cases ar <;> rfl
  · intro hge htr
    cases hrt : t.refresh_token with
    | none => rw [hrt] at htr; simp [strTruthy] at htr
    | some rt =>
      have hne : rt ≠ "" := by
        rw [hrt] at htr
        simpa [strTruthy] using htr
      refine ⟨rt, rfl, ?_, ?_⟩
      · simp only [ensureValidToken, if_pos hge, if_pos htr]
        simp only [refreshToken, hrt, if_neg hne]
        cases rr <;> rfl
      · intro r hrr
        subst hrr
        simp only [ensureValidToken, if_pos hge, if_pos htr]
        simp only [refreshToken, hrt, if_neg hne]
  · intro hlt
    simp only [ensureValidToken]
    rw [if_neg (by omega : ¬ now ≥ t.expires_at)]

/-- C3 witness: an expired credential with refresh token "R0" at
now = 10 dispatches to the refresh grant; an unexpired credential at
now = 0 is left untouched with no request. -/
theorem C3_dispatch_witness :
    (∃ rt, (OAuth2Token.mk "A0" (some "R0") 5 "Bearer").refresh_token = some rt ∧
      (ensureValidToken 10 (Except.ok ⟨"A1", none, 3600, none⟩) (Except.error ())
          (some ⟨"A0", some "R0", 5, "Bearer"⟩)).2.2.head? =
        some (GrantRequest.refreshGrant rt) ∧
      (∀ r, (Except.ok ⟨"A1", none, 3600, none⟩ : Except Unit TokenEndpointResp) =
          Except.ok r →
        (ensureValidToken 10 (Except.ok ⟨"A1", none, 3600, none⟩) (Except.error ())
            (some ⟨"A0", some "R0", 5, "Bearer"⟩)).2.2 =
          [GrantRequest.refreshGrant rt])) ∧
    ensureValidToken 0 (Except.error ()) (Except.error ())
        (some ⟨"A0", none, 100, "Bearer"⟩) =
      (.ok (), some ⟨"A0", none, 100, "Bearer"⟩, []) :=
  ⟨(C3_dispatch 10 (Except.ok ⟨"A1", none, 3600, none⟩) (Except.error ())
      ⟨"A0", some "R0", 5, "Bearer"⟩).2.1 (by decide) (by decide),
   (C3_dispatch 0 (Except.error ()) (Except.error ())
      ⟨"A0", none, 100, "Bearer"⟩).2.2 (by decide)⟩

/-- C7 counterexample: with a stored credential whose token_type is
"MAC", the request interceptor still attaches "Bearer A", not
"MAC A" — the header never uses the stored token type. -/
theorem C7_counterexample :
    (requestInterceptor 0 (Except.error ()) (Except.error ())
        (some ⟨"A", none, 100, "MAC"⟩) ⟨"/contacts", "", none⟩).1 =
      Except.ok ⟨"/contacts", "", some "Bearer A"⟩ ∧
    some "Bearer A" ≠ some ("MAC" ++ " " ++ "A") :=
  ⟨rfl, by decide⟩

/-- C7 (amended): after ensureValidToken succeeds the outgoing request
carries Authorization: Bearer <accessToken> — the literal "Bearer",
regardless of the stored credential's tokenType — with the original url
and body; if no credential could be established the request is never
sent and the authentication failure propagates. -/
theorem C7_bearer_header :
    ∀ (env : AttemptEnv) (rest : List AttemptEnv) (st : TokenState) (cfg : RequestConfig),
      (∀ u st1 g,
        ensureValidToken env.now env.preRefresh env.preAcquire st = (.ok u, st1, g) →
        ∃ t, st1 = some t ∧
          (runRequest (env :: rest) st cfg).2.2.1.head? =
            some ⟨cfg.url, cfg.body, some ("Bearer " ++ t.access_token)⟩) ∧
      (∀ e st1 g,
        ensureValidToken env.now env.preRefresh env.preAcquire st = (.error e, st1, g) →
        (runRequest (env :: rest) st cfg).1 = ReqOutcome.authFailure ∧
        (runRequest (env :: rest) st cfg).2.2.1 = []) := by
  intro env rest st cfg
  constructor
  · intro u st1 g h
    obtain ⟨t, ht⟩ := ensureValidToken_ok_some h
    subst ht
    refine ⟨t, rfl, ?_⟩
    have hri : requestInterceptor env.now env.preRefresh env.preAcquire st cfg =
        (.ok { cfg with authorization := some ("Bearer " ++ t.access_token) },
         some t, g) := by
      simp only [requestInterceptor, h]
    cases hstat : env.status with
    | none =>
      simp only [runRequest, hri, hstat]
      rfl
    | some s =>
      simp only [runRequest, hri, hstat]
      by_cases h2xx : 200 ≤ s ∧ s < 300
      · rw [if_pos h2xx]
        rfl
      · rw [if_neg h2xx]
        by_cases h401 : s = 401 ∧ strTruthy (storedRefreshToken (some t)) = true
        · rw [if_pos h401]
          rcases hrf : refreshToken env.now env.postRefresh env.postAcquire (some t) with
            ⟨res, st2, g2⟩
          cases res <;> rfl
        · rw [if_neg h401]
          rfl
  · intro e st1 g h
    have hri : requestInterceptor env.now env.preRefresh env.preAcquire st cfg =
        (.error e, st1, g) := by
      simp only [requestInterceptor, h]
    constructor <;> simp only [runRequest, hri]

/-- C7 (amended) witness: a successful run from an unexpired credential
sends the request with header "Bearer A"; from no credential and a
failing endpoint, nothing is sent and the failure surfaces. -/
theorem C7_bearer_header_witness :
    (∃ t, (some (OAuth2Token.mk "A" none 100 "MAC") : TokenState) = some t ∧
      (runRequest [⟨0, Except.error (), Except.error (), some 200,
          Except.error (), Except.error ()⟩]
        (some ⟨"A", none, 100, "MAC"⟩) ⟨"/contacts", "b", none⟩).2.2.1.head? =
        some ⟨"/contacts", "b", some ("Bearer " ++ t.access_token)⟩) ∧
    ((runRequest [⟨0, Except.error (), Except.error (), some 200,
          Except.error (), Except.error ()⟩]
        none ⟨"/contacts", "b", none⟩).1 = ReqOutcome.authFailure ∧
     (runRequest [⟨0, Except.error (), Except.error (), some 200,
          Except.error (), Except.error ()⟩]
        none ⟨"/contacts", "b", none⟩).2.2.1 = []) :=
  ⟨(C7_bearer_header ⟨0, Except.error (), Except.error (), some 200,
      Except.error (), Except.error ()⟩ [] (some ⟨"A", none, 100, "MAC"⟩)
      ⟨"/contacts", "b", none⟩).1 () (some ⟨"A", none, 100, "MAC"⟩) [] rfl,
   (C7_bearer_header ⟨0, Except.error (), Except.error (), some 200,
      Except.error (), Except.error ()⟩ [] none
      ⟨"/contacts", "b", none⟩).2 MauticError.authenticationFailure none
      [GrantRequest.clientCredentials] rfl⟩

/-- C8: a 401 response while the stored credential has no (truthy)
refresh token propagates immediately: the outcome is the original 401,
exactly one request was sent, no token-endpoint request of any kind was
made, and the stored credential is unchanged. -/
theorem C8_401_without_refresh_token :
    ∀ (env : AttemptEnv) (rest : List AttemptEnv) (t : OAuth2Token) (cfg : RequestConfig),
      env.now < t.expires_at →
      strTruthy t.refresh_token = false →
      env.status = some 401 →
      runRequest (env :: rest) (some t) cfg =
        (.httpError (some 401), some t,
         [⟨cfg.url, cfg.body, some ("Bearer " ++ t.access_token)⟩], []) := by
  intro env rest t cfg hlt htr hs
  have hens : ensureValidToken env.now env.preRefresh env.preAcquire (some t) =
      (.ok (), some t, []) := by
    simp only [ensureValidToken]
    rw [if_neg (by omega : ¬ env.now ≥ t.expires_at)]
  have hri : requestInterceptor env.now env.preRefresh env.preAcquire (some t) cfg =
      (.ok { cfg with authorization := some ("Bearer " ++ t.access_token) },
       some t, []) := by
    simp only [requestInterceptor, hens]
  simp only [runRequest, hri, hs]
  have hfalse : strTruthy (storedRefreshToken (some t)) = false := by
    simp [storedRefreshToken, htr]
  simp [hfalse]

/-- C8 witness: a concrete 401 with a refresh-token-free credential. -/
theorem C8_401_without_refresh_token_witness :
    runRequest [⟨0, Except.error (), Except.error (), some 401,
        Except.ok ⟨"A1", some "R1", 3600, none⟩, Except.ok ⟨"A1", some "R1", 3600, none⟩⟩]
      (some ⟨"A", none, 100, "Bearer"⟩) ⟨"/x", "b", none⟩ =
      (.httpError (some 401), some ⟨"A", none, 100, "Bearer"⟩,
       [⟨"/x", "b", some ("Bearer " ++ "A")⟩], []) :=
  C8_401_without_refresh_token ⟨0, Except.error (), Except.error (), some 401,
      Except.ok ⟨"A1", some "R1", 3600, none⟩, Except.ok ⟨"A1", some "R1", 3600, none⟩⟩
    [] ⟨"A", none, 100, "Bearer"⟩ ⟨"/x", "b", none⟩ (by decide) (by decide) rfl

/-- C1 counterexample: starting from a valid credential with refresh
token "R0", three consecutive non-2xx responses (401, 401, 500) with a
refresh endpoint that keeps succeeding produce three physical sends of
the same request — a third attempt is made, because the replay re-enters
the full interceptor chain with no retry guard. -/
theorem C1_counterexample :
    ((runRequest
      [⟨0, Except.error (), Except.error (), some 401,
        Except.ok ⟨"A1", some "R1", 3600, none⟩, Except.error ()⟩,
       ⟨0, Except.error (), Except.error (), some 401,
        Except.ok ⟨"A1", some "R1", 3600, none⟩, Except.error ()⟩,
       ⟨0, Except.error (), Except.error (), some 500,
        Except.error (), Except.error ()⟩]
      (some ⟨"A0", some "R0", 1000000, "Bearer"⟩)
      ⟨"/contacts", "", none⟩).2.2.1).length = 3 ∧
    ¬ (((runRequest
      [⟨0, Except.error (), Except.error (), some 401,
        Except.ok ⟨"A1", some "R1", 3600, none⟩, Except.error ()⟩,
       ⟨0, Except.error (), Except.error (), some 401,
        Except.ok ⟨"A1", some "R1", 3600, none⟩, Except.error ()⟩,
       ⟨0, Except.error (), Except.error (), some 500,
        Except.error (), Except.error ()⟩]
      (some ⟨"A0", some "R0", 1000000, "Bearer"⟩)
      ⟨"/contacts", "", none⟩).2.2.1).length ≤ 2) :=
  ⟨by decide, by decide⟩

/-- C1 (amended): a 401 received while a (truthy) refresh token is known
triggers a refresh and one replay of the original request, carrying the
refreshed access token with the original url and body; when that replay
fails with a status other than 401 the surfaced error is the replay's
failure and exactly two requests were sent.  (When the replay itself
receives a 401 with a still-known refresh token and refresh succeeds,
the chain replays again — replays are not capped at one.) -/
theorem C1_replay_surfaces_second_failure :
    ∀ (e1 e2 : AttemptEnv) (rest : List AttemptEnv) (t : OAuth2Token)
      (cfg : RequestConfig) (r1 : TokenEndpointResp) (s : Nat),
      e1.now < t.expires_at →
      strTruthy t.refresh_token = true →
      e1.status = some 401 →
      e1.postRefresh = Except.ok r1 →
      e2.now < e1.now + r1.expires_in * 1000 - 60000 →
      e2.status = some s →
      ¬ (200 ≤ s ∧ s < 300) →
      s ≠ 401 →
      (runRequest (e1 :: e2 :: rest) (some t) cfg).1 = ReqOutcome.httpError (some s) ∧
      (runRequest (e1 :: e2 :: rest) (some t) cfg).2.2.1 =
        [⟨cfg.url, cfg.body, some ("Bearer " ++ t.access_token)⟩,
         ⟨cfg.url, cfg.body, some ("Bearer " ++ r1.access_token)⟩] := by
  intro e1 e2 rest t cfg r1 s h1lt htr h1s h1rr h2lt h2s hn2xx hn401
  cases hrt : t.refresh_token with
  | none => rw [hrt] at htr; simp [strTruthy] at htr
  | some rt =>
    have hne : rt ≠ "" := by
      rw [hrt] at htr
      simpa [strTruthy] using htr
    have hens1 : ensureValidToken e1.now e1.preRefresh e1.preAcquire (some t) =
        (.ok (), some t, []) := by
      simp only [ensureValidToken]
      rw [if_neg (by omega : ¬ e1.now ≥ t.expires_at)]
    have hri1 : requestInterceptor e1.now e1.preRefresh e1.preAcquire (some t) cfg =
        (.ok { cfg with authorization := some ("Bearer " ++ t.access_token) },
         some t, []) := by
      simp only [requestInterceptor, hens1]
    have hrf : refreshToken e1.now e1.postRefresh e1.postAcquire (some t) =
        (.ok (), some { access_token := r1.access_token,
                        refresh_token := jsOr r1.refresh_token (some rt),
                        expires_at := e1.now + r1.expires_in * 1000 - 60000,
                        token_type := jsOrD r1.token_type "Bearer" },
         [.refreshGrant rt]) := by
      simp only [refreshToken, hrt, if_neg hne, h1rr]
    have hcond : strTruthy (storedRefreshToken (some t)) = true := by
      simpa [storedRefreshToken] using htr
    have hens2 : ensureValidToken e2.now e2.preRefresh e2.preAcquire
        (some { access_token := r1.access_token,
                refresh_token := jsOr r1.refresh_token (some rt),
                expires_at := e1.now + r1.expires_in * 1000 - 60000,
                token_type := jsOrD r1.token_type "Bearer" }) =
        (.ok (), some { access_token := r1.access_token,
                        refresh_token := jsOr r1.refresh_token (some rt),
                        expires_at := e1.now + r1.expires_in * 1000 - 60000,
                        token_type := jsOrD r1.token_type "Bearer" }, []) := by
      simp only [ensureValidToken]
      rw [if_neg (by omega : ¬ e2.now ≥ e1.now + r1.expires_in * 1000 - 60000)]
    have hrun2 : ∀ (body0 url0 : String),
        runRequest (e2 :: rest)
          (some { access_token := r1.access_token,
                  refresh_token := jsOr r1.refresh_token (some rt),
                  expires_at := e1.now + r1.expires_in * 1000 - 60000,
                  token_type := jsOrD r1.token_type "Bearer" })
          ⟨url0, body0, some ("Bearer " ++ r1.access_token)⟩ =
        (.httpError (some s),
         some { access_token := r1.access_token,
                refresh_token := jsOr r1.refresh_token (some rt),
                expires_at := e1.now + r1.expires_in * 1000 - 60000,
                token_type := jsOrD r1.token_type "Bearer" },
         [⟨url0, body0, some ("Bearer " ++ r1.access_token)⟩], []) := by
      intro body0 url0
      have hri2 : requestInterceptor e2.now e2.preRefresh e2.preAcquire
          (some { access_token := r1.access_token,
                  refresh_token := jsOr r1.refresh_token (some rt),
                  expires_at := e1.now + r1.expires_in * 1000 - 60000,
                  token_type := jsOrD r1.token_type "Bearer" })
          ⟨url0, body0, some ("Bearer " ++ r1.access_token)⟩ =
          (.ok ⟨url0, body0, some ("Bearer " ++ r1.access_token)⟩,
           some { access_token := r1.access_token,
                  refresh_token := jsOr r1.refresh_token (some rt),
                  expires_at := e1.now + r1.expires_in * 1000 - 60000,
                  token_type := jsOrD r1.token_type "Bearer" }, []) := by
        simp only [requestInterceptor, hens2]
      simp only [runRequest, hri2, h2s]
      rw [if_neg hn2xx]
      rw [if_neg (fun hc => hn401 hc.1)]
    simp only [runRequest, hri1, h1s, hcond, hrf]
    constructor
    · exact congrArg (fun x => x.1) (hrun2 cfg.body cfg.url)
    · exact (congrArg
        (fun l => (⟨cfg.url, cfg.body, some ("Bearer " ++ t.access_token)⟩ : SentRequest) :: l)
        (congrArg (fun x => x.2.2.1) (hrun2 cfg.body cfg.url))).trans rfl

/-- C1 (amended) witness: a valid credential with refresh token "R0", a
401 answered by a successful refresh to "A1"/"R1", then a 500 on the
replay: the surfaced error is the replay's 500 and exactly the two
requests shown were sent. -/
theorem C1_replay_surfaces_second_failure_witness :
    (runRequest
      [⟨0, Except.error (), Except.error (), some 401,
        Except.ok ⟨"A1", some "R1", 3600, none⟩, Except.error ()⟩,
       ⟨0, Except.error (), Except.error (), some 500,
        Except.error (), Except.error ()⟩]
      (some ⟨"A0", some "R0", 1000000, "Bearer"⟩)
      ⟨"/contacts", "", none⟩).1 = ReqOutcome.httpError (some 500) ∧
    (runRequest
      [⟨0, Except.error (), Except.error (), some 401,
        Except.ok ⟨"A1", some "R1", 3600, none⟩, Except.error ()⟩,
       ⟨0, Except.error (), Except.error (), some 500,
        Except.error (), Except.error ()⟩]
      (some ⟨"A0", some "R0", 1000000, "Bearer"⟩)
      ⟨"/contacts", "", none⟩).2.2.1 =
      [⟨"/contacts", "", some ("Bearer " ++ "A0")⟩,
       ⟨"/contacts", "", some ("Bearer " ++ "A1")⟩] :=
  C1_replay_surfaces_second_failure
    ⟨0, Except.error (), Except.error (), some 401,
      Except.ok ⟨"A1", some "R1", 3600, none⟩, Except.error ()⟩
    ⟨0, Except.error (), Except.error (), some 500,
      Except.error (), Except.error ()⟩
    [] ⟨"A0", some "R0", 1000000, "Bearer"⟩ ⟨"/contacts", "", none⟩
    ⟨"A1", some "R1", 3600, none⟩ 500
    (by decide) (by decide) rfl rfl (by decide) rfl (by decide) (by decide)

/-- A truthy numeric limit is forwarded as min(limit, 200); an absent or
zero limit produces no parameter. -/
lemma limitField_cases (lim : Option Int) (l : Int) :
    (lim = some l → l ≠ 0 →
      (if numTruthy lim then lim.map (fun x => min x 200) else none) =
        some (min l 200)) ∧
    ((lim = none ∨ lim = some 0) →
      (if numTruthy lim then lim.map (fun x => min x 200) else none) = none) := by
  constructor
  · intro h hl
    subst h
    simp [numTruthy, hl]
  · rintro (h | h) <;> subst h <;> simp [numTruthy]

/-- C10: every list/search handler that accepts a limit argument
(search_contacts, list_campaigns, list_emails, list_forms,
get_form_submissions, get_segment_contacts, get_contact_activity, and
list_segments) forwards min(limit, 200) when the supplied limit is a
truthy number, and sends no limit parameter when the limit is absent or
zero. -/
theorem C10_limit_capped_at_200 :
    ∀ (a1 : SearchContactsArgs) (a2 a3 a4 a5 : ListToolArgs)
      (a6 : FormSubmissionsArgs) (a7 : SegmentContactsArgs)
      (a8 : ContactActivityArgs) (l : Int),
      ((a1.limit = some l → l ≠ 0 →
          (searchContactsParams a1).limit = some (min l 200)) ∧
       ((a1.limit = none ∨ a1.limit = some 0) →
          (searchContactsParams a1).limit = none)) ∧
      ((a2.limit = some l → l ≠ 0 →
          (listCampaignsParams a2).limit = some (min l 200)) ∧
       ((a2.limit = none ∨ a2.limit = some 0) →
          (listCampaignsParams a2).limit = none)) ∧
      ((a3.limit = some l → l ≠ 0 →
          (listEmailsParams a3).limit = some (min l 200)) ∧
       ((a3.limit = none ∨ a3.limit = some 0) →
          (listEmailsParams a3).limit = none)) ∧
      ((a4.limit = some l → l ≠ 0 →
          (listFormsParams a4).limit = some (min l 200)) ∧
       ((a4.limit = none ∨ a4.limit = some 0) →
          (listFormsParams a4).limit = none)) ∧
      ((a5.limit = some l → l ≠ 0 →
          (listSegmentsParams a5).limit = some (min l 200)) ∧
       ((a5.limit = none ∨ a5.limit = some 0) →
          (listSegmentsParams a5).limit = none)) ∧
      ((a6.limit = some l → l ≠ 0 →
          (getFormSubmissionsParams a6).limit = some (min l 200)) ∧
       ((a6.limit = none ∨ a6.limit = some 0) →
          (getFormSubmissionsParams a6).limit = none)) ∧
      ((a7.limit = some l → l ≠ 0 →
          (getSegmentContactsParams a7).limit = some (min l 200)) ∧
       ((a7.limit = none ∨ a7.limit = some 0) →
          (getSegmentContactsParams a7).limit = none)) ∧
      ((a8.limit = some l → l ≠ 0 →
          (getContactActivityParams a8).limit = some (min l 200)) ∧
       ((a8.limit = none ∨ a8.limit = some 0) →
          (getContactActivityParams a8).limit = none)) :=
  fun a1 a2 a3 a4 a5 a6 a7 a8 l =>
    ⟨limitField_cases a1.limit l, limitField_cases a2.limit l,
     limitField_cases a3.limit l, limitField_cases a4.limit l,
     limitField_cases a5.limit l, limitField_cases a6.limit l,
     limitField_cases a7.limit l, limitField_cases a8.limit l⟩

/-- C10 witness: a supplied limit of 500 is capped to 200 by
search_contacts, and an absent limit yields no limit parameter for
get_segment_contacts. -/
theorem C10_limit_capped_at_200_witness :
    (searchContactsParams
        ⟨none, some 500, none, none, none, none, none⟩).limit =
      some (min (500 : Int) 200) ∧
    (getSegmentContactsParams ⟨3, none, none⟩).limit = none :=
  ⟨(C10_limit_capped_at_200 ⟨none, some 500, none, none, none, none, none⟩
      ⟨none, none, none, none⟩ ⟨none, none, none, none⟩ ⟨none, none, none, none⟩
      ⟨none, none, none, none⟩ ⟨7, none, none, none, none⟩ ⟨3, none, none⟩
      ⟨9, none, none, none, none, none, none⟩ 500).1.1 rfl (by decide),
   (C10_limit_capped_at_200 ⟨none, some 500, none, none, none, none, none⟩
      ⟨none, none, none, none⟩ ⟨none, none, none, none⟩ ⟨none, none, none, none⟩
      ⟨none, none, none, none⟩ ⟨7, none, none, none, none⟩ ⟨3, none, none⟩
      ⟨9, none, none, none, none, none, none⟩ 500).2.2.2.2.2.2.1.2 (Or.inl rfl)⟩

/-- C6 witness: acquisition and refresh at now = 0 with
expires_in = 3600 both store expires_at = 0 + 3600 * 1000 - 60000. -/
theorem C6_expiry_safety_margin_witness :
    (∃ c, (getAccessToken 0 (Except.ok ⟨"A1", none, 3600, some "Bearer"⟩) none).2.1 =
        some c ∧ c.expires_at = 0 + 3600 * 1000 - 60000) ∧
    (∃ c, (refreshToken 0 (Except.ok ⟨"A1", none, 3600, some "Bearer"⟩)
        (Except.error ()) (some ⟨"A0", some "R0", 5, "Bearer"⟩)).2.1 =
        some c ∧ c.expires_at = 0 + 3600 * 1000 - 60000) :=
  ⟨(C6_expiry_safety_margin 0 ⟨"A1", none, 3600, some "Bearer"⟩ none
      (Except.error ()) ⟨"A0", some "R0", 5, "Bearer"⟩ "R0").1,
   (C6_expiry_safety_margin 0 ⟨"A1", none, 3600, some "Bearer"⟩ none
      (Except.error ()) ⟨"A0", some "R0", 5, "Bearer"⟩ "R0").2 rfl (by decide)⟩

/-- C5 witness: a refresh response without refresh_token keeps "R1"; one
carrying "R2" replaces it. -/
theorem C5_refresh_token_retention_witness :
    (∃ c, (refreshToken 0 (Except.ok ⟨"A2", none, 1800, none⟩) (Except.error ())
        (some ⟨"A1", some "R1", 0, "Bearer"⟩)).2.1 = some c ∧
      c.refresh_token = some "R1") ∧
    (∃ c, (refreshToken 0 (Except.ok ⟨"A2", some "R2", 1800, none⟩) (Except.error ())
        (some ⟨"A1", some "R1", 0, "Bearer"⟩)).2.1 = some c ∧
      c.refresh_token = some "R2") :=
  ⟨(C5_refresh_token_retention 0 (Except.error ()) ⟨"A1", some "R1", 0, "Bearer"⟩ "R1"
      ⟨"A2", none, 1800, none⟩ rfl (by decide)).1 rfl,
   (C5_refresh_token_retention 0 (Except.error ()) ⟨"A1", some "R1", 0, "Bearer"⟩ "R1"
      ⟨"A2", some "R2", 1800, none⟩ rfl (by decide)).2 "R2" rfl (by decide)⟩

/-- C4 witness: refresh grant fails; fallback acquisition succeeding
with expires_in = 1800 stores a new credential without error, while a
failing fallback surfaces authenticationFailure with the old credential
unchanged. -/
theorem C4_refresh_fallback_witness :
    (∃ c, refreshToken 0 (Except.error ()) (Except.ok ⟨"A2", none, 1800, none⟩)
        (some ⟨"A0", some "R0", 0, "Bearer"⟩) =
        (.ok (), some c, [.refreshGrant "R0", .clientCredentials]) ∧
        c.access_token = "A2" ∧
        c.expires_at = 0 + 1800 * 1000 - 60000 ∧
        (60 < (1800 : Int) → (0 : Int) < c.expires_at)) ∧
    refreshToken 0 (Except.error ()) (Except.error ())
        (some ⟨"A0", some "R0", 0, "Bearer"⟩) =
      (.error .authenticationFailure, some ⟨"A0", some "R0", 0, "Bearer"⟩,
       [.refreshGrant "R0", .clientCredentials]) :=
  C4_refresh_fallback 0 ⟨"A0", some "R0", 0, "Bearer"⟩ "R0"
    ⟨"A2", none, 1800, none⟩ rfl (by decide)

end Mautic

